import Mathlib

/-!
Verification of the credential token lifecycle manager of `src/bot.py`.

The Python module is shallowly embedded: Python strings become `List Char`
(`PyStr`), Python exceptions become an explicit `PyErr` error type carried by
`Except`, the module-level globals (`IAM_TOKEN`, `IAM_TOKEN_EXPIRES`,
`AUTHORIZED_KEY`) become a `Globals` record that is threaded explicitly, the
ambient clock reads (`time.time()`, `datetime.now(timezone.utc)`) become an
explicit `Int` epoch-second value, and the two external effects (the HTTPS
token exchange and the `.env` file system) become explicit inputs: the
exchange's outcome is a parameter of type `Except PyErr (PyStr × PyStr)`, and
the `.env` file is a `PyStr` threaded through the functions that touch it.

Timestamps: the library parser `datetime.fromisoformat` is modelled at its
interface by representing an instant by its decimal epoch-second string; a
string that is not of that shape fails to parse (raises `ValueError`), just as
a non-ISO string does in the library.  All datetime arithmetic is on epoch
seconds (`Int`), so `timedelta(minutes=5)` is `5 * 60`.
-/

/-- Python strings are modelled as lists of characters. -/
abbrev PyStr := List Char

/-- Python exceptions relevant to the embedded code. -/
inductive PyErr where
  | valueError
  | keyError
  | ioError
  | httpError
  deriving DecidableEq, Repr

deriving instance DecidableEq for Except

/-- Python truthiness of an optional string: `None` and the empty string are
falsy (`not IAM_TOKEN` in the source). -/
def pyFalsy : Option PyStr → Bool
  | none => true
  | some s => s.isEmpty

/-- Embeds `IAM_TOKEN_EXPIRES.replace('Z', '+00:00')` from
`is_token_expired` (src/bot.py line 57): every `'Z'` is replaced by the
six characters `+00:00`. -/
def replace_Z : PyStr → PyStr
  | [] => []
  | c :: cs =>
    if c = 'Z' then '+' :: '0' :: '0' :: ':' :: '0' :: '0' :: replace_Z cs
    else c :: replace_Z cs

/-- Decimal value of a digit string. -/
def digitsToNat (cs : PyStr) : Nat :=
  cs.foldl (fun a c => a * 10 + (c.toNat - 48)) 0

/-- Models the library call `datetime.fromisoformat` at its interface: a
timestamp string is represented by its decimal epoch-second form and denotes
that instant; any string not of that shape fails to parse, modelling the
`ValueError` the library raises on a malformed timestamp. -/
def datetime_fromisoformat (cs : PyStr) : Option Int :=
  if !cs.isEmpty && cs.all Char.isDigit then some (digitsToNat cs : Int) else none

/-- Embeds the body of the `try` block of `is_token_expired`
(src/bot.py lines 56-59): parse the stored expiry (raising `ValueError` on a
malformed string) and compare `datetime.now(timezone.utc) >=
expires_at - timedelta(minutes=5)`.  `now` is the ambient clock reading in
epoch seconds. -/
def is_token_expired_try (s : PyStr) (now : Int) : Except PyErr Bool :=
  match datetime_fromisoformat (replace_Z s) with
  | none => Except.error PyErr.valueError
  | some expires_at => Except.ok (decide (now ≥ expires_at - 5 * 60))

/-- Embeds `is_token_expired` (src/bot.py lines 51-62): truthiness check on
the two globals, then the `try` body, with the `except` clause turning any
raised error into `True`. -/
def is_token_expired (tok expires : Option PyStr) (now : Int) : Bool :=
  if pyFalsy tok || pyFalsy expires then true
  else
    match is_token_expired_try (expires.getD []) now with
    | Except.ok b => b
    | Except.error _ => true

/-- The token endpoint URL constant `IAM_TOKEN_URL` (src/bot.py line 43). -/
def IAM_TOKEN_URL : PyStr := ("https://iam.api.cloud.yandex.net/iam/v1/tokens").toList

/-- The dictionary key `'service_account_id'` used by `create_jwt_token`. -/
def key_service_account_id : PyStr := ("service_account_id").toList

/-- The dictionary key `'private_key'` used by `create_jwt_token`. -/
def key_private_key : PyStr := ("private_key").toList

/-- The dictionary key `'id'` used by `create_jwt_token`. -/
def key_id : PyStr := ("id").toList

/-- Python dictionary lookup `d[k]` over the JSON object, returning `none`
where the source would raise `KeyError`. -/
def dict_get : List (PyStr × PyStr) → PyStr → Option PyStr
  | [], _ => none
  | (k, v) :: rest, key => if k = key then some v else dict_get rest key

/-- The JWT payload dictionary built by `create_jwt_token`
(src/bot.py lines 120-125).  It has exactly the four fields `aud`, `iss`,
`iat`, `exp`; in particular the key identifier is not a payload field. -/
structure JwtPayload where
  aud : PyStr
  iss : PyStr
  iat : Int
  exp : Int
  deriving DecidableEq, Repr

/-- The signed assertion produced by `jwt.encode` (src/bot.py lines 127-132):
the payload, the signing algorithm name passed as `algorithm='PS256'`, the
key identifier passed in the header as `headers={'kid': ...}`, and the key
material the signature is produced with.  The RSA-PSS/SHA-256 primitive
itself is below the interface boundary and is represented by the algorithm
name and key material. -/
structure Jwt where
  payload : JwtPayload
  alg : PyStr
  kid : PyStr
  signing_key : PyStr
  deriving DecidableEq, Repr

/-- Embeds `create_jwt_token` (src/bot.py lines 116-138) with the value read
from `time.time()` made explicit as `clock`.  The three dictionary accesses
`AUTHORIZED_KEY['service_account_id']`, `AUTHORIZED_KEY['private_key']`,
`AUTHORIZED_KEY['id']` raise `KeyError` when the field is absent (the
source's `except` clause logs and re-raises, so the error propagates). -/
def create_jwt_token (authorized_key : List (PyStr × PyStr)) (clock : Int) :
    Except PyErr Jwt :=
  match dict_get authorized_key key_service_account_id with
  | none => Except.error PyErr.keyError
  | some sa =>
    match dict_get authorized_key key_private_key, dict_get authorized_key key_id with
    | some pk, some kid =>
        Except.ok
          { payload := { aud := IAM_TOKEN_URL, iss := sa, iat := clock, exp := clock + 3600 }
            alg := ("PS256").toList
            kid := kid
            signing_key := pk }
    | _, _ => Except.error PyErr.keyError

/-- The ambient process state seen by the zero-argument Python function
`create_jwt_token()`: the module global `AUTHORIZED_KEY` and the system
clock that `now = int(time.time())` reads. -/
structure BotProcess where
  authorized_key : List (PyStr × PyStr)
  clock : Int
  deriving DecidableEq, Repr

/-- Embeds the call `create_jwt_token()` exactly as the source declares it:
the Python function takes no parameters; the timestamp comes from the
ambient process clock read inside the function body. -/
def create_jwt_token_ambient (p : BotProcess) : Except PyErr Jwt :=
  create_jwt_token p.authorized_key p.clock

/-- Embeds the startup configuration block (src/bot.py lines 23-40): reading
and JSON-parsing the key file (`none` models a missing or malformed file,
where `open`/`json.load` raise), then
`if not all([TELEGRAM_TOKEN, YANDEX_FOLDER_ID, AUTHORIZED_KEY])`, which
raises `ValueError` when any of the three is falsy (an empty JSON object is
falsy).  The whole block runs at import time, before any network call. -/
def startup_config (tg fid : Option PyStr) (keyfile : Option (List (PyStr × PyStr))) :
    Except PyErr (List (PyStr × PyStr)) :=
  match keyfile with
  | none => Except.error PyErr.ioError
  | some k =>
    if pyFalsy tg || pyFalsy fid || k.isEmpty then Except.error PyErr.valueError
    else Except.ok k

/-- A well-formed credential dictionary used as a concrete test fixture. -/
def demo_key : List (PyStr × PyStr) :=
  [(key_service_account_id, ("sa-1").toList),
   (key_private_key, ("pem").toList),
   (key_id, ("k-1").toList)]

/-- C9: the freshness check is total over the stored expiry string: an
expiry the parser rejects makes the `try` body raise, the `except` clause
turns any such raise into `True` (expired), and no exception escapes
`is_token_expired`. -/
theorem claim_C9_theorem (tok : Option PyStr) (s : PyStr) (now : Int) :
    (∀ err, is_token_expired_try s now = Except.error err →
      is_token_expired tok (some s) now = true)
    ∧ (datetime_fromisoformat (replace_Z s) = none →
      is_token_expired tok (some s) now = true) := by
  constructor
  · intro err h
    unfold is_token_expired
    cases hc : pyFalsy tok || pyFalsy (some s) with
    | true => simp [hc]
    | false => simp [hc, h]
  · intro hn
    have h : is_token_expired_try s now = Except.error PyErr.valueError := by
      simp [is_token_expired_try, hn]
    unfold is_token_expired
    cases hc : pyFalsy tok || pyFalsy (some s) with
    | true => simp [hc]
    | false => simp [hc, h]

/-- Witness for C9 at a concrete unparseable expiry string. -/
theorem claim_C9_witness :
    is_token_expired (some (("t").toList)) (some (("not-a-date").toList)) 0 = true :=
  (claim_C9_theorem (some (("t").toList)) (("not-a-date").toList) 0).2 (by decide)

/-- C6: for every credential dictionary carrying the three fields and every
clock reading, `create_jwt_token` produces an assertion whose payload is
exactly `{aud: token endpoint URL, iss: service_account_id, iat: now,
exp: now + 3600}`, whose algorithm is `PS256`, and whose key identifier sits
in the header (`kid`), the payload type having no key-identifier field. -/
theorem claim_C6_theorem (k : List (PyStr × PyStr)) (sa pk kid : PyStr) (clock : Int)
    (hsa : dict_get k key_service_account_id = some sa)
    (hpk : dict_get k key_private_key = some pk)
    (hid : dict_get k key_id = some kid) :
    create_jwt_token k clock =
      Except.ok
        { payload := { aud := IAM_TOKEN_URL, iss := sa, iat := clock, exp := clock + 3600 }
          alg := ("PS256").toList
          kid := kid
          signing_key := pk } := by
  simp [create_jwt_token, hsa, hpk, hid]

/-- Witness for C6: the spec's scenario, `serviceAccountId = "sa-1"`,
`keyId = "k-1"`, `now = 1000`, yields `iat = 1000` and `exp = 4600`. -/
theorem claim_C6_witness :
    create_jwt_token demo_key 1000 =
      Except.ok
        { payload := { aud := IAM_TOKEN_URL, iss := ("sa-1").toList, iat := 1000, exp := 4600 }
          alg := ("PS256").toList
          kid := ("k-1").toList
          signing_key := ("pem").toList } := by
  have h := claim_C6_theorem demo_key (("sa-1").toList) (("pem").toList) (("k-1").toList)
    1000 (by decide) (by decide) (by decide)
  exact h.trans (by decide)

/-- C7 fails as stated: the source's signer takes no caller-supplied time
parameter; with every caller-visible input identical (the function has none)
its output still varies with the ambient clock it reads internally via
`time.time()`. -/
theorem claim_C7_counterexample :
    (BotProcess.mk demo_key 0).authorized_key = (BotProcess.mk demo_key 1).authorized_key
    ∧ create_jwt_token_ambient (BotProcess.mk demo_key 0) ≠
        create_jwt_token_ambient (BotProcess.mk demo_key 1) := by
  decide

/-- C7 amended: the signer reads the clock internally (`now = int(time.time())`)
rather than taking it as a parameter; its output is determined by the
credential together with the clock reading, and a successful run stamps
`iat = clock` and `exp = clock + 3600`. -/
theorem claim_C7_theorem (p q : BotProcess)
    (h1 : p.authorized_key = q.authorized_key) (h2 : p.clock = q.clock) :
    create_jwt_token_ambient p = create_jwt_token_ambient q
    ∧ (∀ j, create_jwt_token_ambient p = Except.ok j →
        j.payload.iat = p.clock ∧ j.payload.exp = p.clock + 3600) := by
  constructor
  · unfold create_jwt_token_ambient
    rw [h1, h2]
  · intro j hj
    unfold create_jwt_token_ambient create_jwt_token at hj
    cases hsa : dict_get p.authorized_key key_service_account_id with
    | none => rw [hsa] at hj; cases hj
    | some sa =>
      rw [hsa] at hj
      cases hpk : dict_get p.authorized_key key_private_key with
      | none => rw [hpk] at hj; cases hj
      | some pk =>
        cases hid : dict_get p.authorized_key key_id with
        | none => rw [hpk, hid] at hj; cases hj
        | some kid =>
          rw [hpk, hid] at hj
          cases hj
          exact ⟨rfl, rfl⟩

/-- Witness for C7's amended statement at a concrete process state. -/
theorem claim_C7_witness :
    create_jwt_token_ambient (BotProcess.mk demo_key 5) =
      create_jwt_token_ambient (BotProcess.mk demo_key 5)
    ∧ (∀ j, create_jwt_token_ambient (BotProcess.mk demo_key 5) = Except.ok j →
        j.payload.iat = 5 ∧ j.payload.exp = 5 + 3600) :=
  claim_C7_theorem (BotProcess.mk demo_key 5) (BotProcess.mk demo_key 5) rfl rfl

/-- C8 fails as stated: a key file that parses to a non-empty JSON object
passes the startup check even though all three required credential fields
are absent; the source only checks truthiness of the whole object, never the
individual fields. -/
theorem claim_C8_counterexample :
    startup_config (some (("tg").toList)) (some (("folder").toList))
        (some [((("unrelated").toList), (("x").toList))]) =
      Except.ok [((("unrelated").toList), (("x").toList))]
    ∧ dict_get [((("unrelated").toList), (("x").toList))] key_service_account_id = none
    ∧ dict_get [((("unrelated").toList), (("x").toList))] key_private_key = none
    ∧ dict_get [((("unrelated").toList), (("x").toList))] key_id = none := by
  decide

/-- C8 amended: startup (which runs at import time, before any network
activity) validates only that the key file opens and parses and that the
bot token, the folder id and the parsed object are non-empty; a missing or
malformed key file is a fatal startup error, but the three individual
credential fields are not checked until the first signing attempt, where an
absent field raises `KeyError`. -/
theorem claim_C8_theorem (tg fid : Option PyStr) (k : List (PyStr × PyStr)) (clock : Int)
    (h1 : pyFalsy tg = false) (h2 : pyFalsy fid = false) :
    startup_config tg fid none = Except.error PyErr.ioError
    ∧ (k ≠ [] → startup_config tg fid (some k) = Except.ok k)
    ∧ (dict_get k key_service_account_id = none →
        create_jwt_token k clock = Except.error PyErr.keyError) := by
  refine ⟨rfl, ?_, ?_⟩
  · intro hk
    have hke : k.isEmpty = false := by
      cases k with
      | nil => exact absurd rfl hk
      | cons a l => rfl
    simp [startup_config, h1, h2, hke]
  · intro hsa
    simp [create_jwt_token, hsa]

/-- Witness for C8's amended statement at concrete configuration values. -/
theorem claim_C8_witness :
    startup_config (some (("tg").toList)) (some (("folder").toList)) none =
      Except.error PyErr.ioError :=
  (claim_C8_theorem (some (("tg").toList)) (some (("folder").toList)) demo_key 0
    (by decide) (by decide)).1

/-- Python whitespace as stripped by `str.strip()`. -/
def isPySpace (c : Char) : Bool :=
  c = ' ' || c = '\t' || c = '\n' || c = '\r' || c = '\x0b' || c = '\x0c'

/-- Embeds `line.strip()`: drop leading and trailing whitespace. -/
def pyStrip (l : PyStr) : PyStr :=
  ((l.dropWhile isPySpace).reverse.dropWhile isPySpace).reverse

/-- The literal `"IAM_TOKEN="` tested by `line.strip().startswith(...)`. -/
def line_key_token : PyStr := ("IAM_TOKEN=").toList

/-- The literal `"IAM_TOKEN_EXPIRES="` tested by `line.strip().startswith(...)`. -/
def line_key_expires : PyStr := ("IAM_TOKEN_EXPIRES=").toList

/-- The store key `IAM_TOKEN` under which the bearer token is persisted. -/
def env_key_token : PyStr := ("IAM_TOKEN").toList

/-- The store key `IAM_TOKEN_EXPIRES` under which the expiry is persisted. -/
def env_key_expires : PyStr := ("IAM_TOKEN_EXPIRES").toList

/-- Embeds `line.strip().startswith("IAM_TOKEN=")` (src/bot.py line 95). -/
def matches_token_line (l : PyStr) : Bool := line_key_token.isPrefixOf (pyStrip l)

/-- Embeds `line.strip().startswith("IAM_TOKEN_EXPIRES=")` (src/bot.py line 98). -/
def matches_expires_line (l : PyStr) : Bool := line_key_expires.isPrefixOf (pyStrip l)

/-- The replacement line `f"IAM_TOKEN={token}\n"` written by `save_token_to_env`. -/
def token_line (t : PyStr) : PyStr := line_key_token ++ t ++ ['\n']

/-- The replacement line `f"IAM_TOKEN_EXPIRES={expires_at}\n"` written by
`save_token_to_env`. -/
def expires_line (e : PyStr) : PyStr := line_key_expires ++ e ++ ['\n']

/-- Embeds `file.readlines()`: split the raw file contents into chunks, each
ending right after a `'\n'`; a final chunk with no newline is kept as is. -/
def readlines : PyStr → List PyStr
  | [] => []
  | c :: cs =>
    if c = '\n' then ['\n'] :: readlines cs
    else
      match readlines cs with
      | [] => [[c]]
      | l :: ls => (c :: l) :: ls

/-- Embeds the rewrite loop of `save_token_to_env` (src/bot.py lines 91-107):
each line whose stripped form starts with `IAM_TOKEN=` (resp.
`IAM_TOKEN_EXPIRES=`) is replaced by the fresh token (resp. expiry) line, any
other line is kept verbatim, and the two found-flags record whether a
replacement happened. -/
def save_lines_loop (ls : List PyStr) (t e : PyStr) : List PyStr × Bool × Bool :=
  match ls with
  | [] => ([], false, false)
  | l :: rest =>
    let r := save_lines_loop rest t e
    if matches_token_line l then (token_line t :: r.1, true, r.2.2)
    else if matches_expires_line l then (expires_line e :: r.1, r.2.1, true)
    else (l :: r.1, r.2.1, r.2.2)

/-- Embeds `save_token_to_env`'s construction of `new_lines`
(src/bot.py lines 91-107): the rewrite loop followed by appending the token
line and then the expiry line when no existing line carried them. -/
def save_lines (ls : List PyStr) (t e : PyStr) : List PyStr :=
  let r := save_lines_loop ls t e
  r.1 ++ (if r.2.1 then [] else [token_line t]) ++ (if r.2.2 then [] else [expires_line e])

/-- Embeds the file-level effect of `save_token_to_env`'s `try` body:
`readlines` on the existing contents, the rewrite loop, then
`file.writelines(new_lines)`, which concatenates the lines verbatim. -/
def save_env_file (store t e : PyStr) : PyStr :=
  (save_lines (readlines store) t e).flatten

/-- Embeds the `try` body of `save_token_to_env` (src/bot.py lines 84-112)
with the possibility of a file-system failure made explicit: when the I/O
fails (`fsOk = false`) the body raises and the store is not rewritten. -/
def save_token_to_env_try (store t e : PyStr) (fsOk : Bool) : Except PyErr PyStr :=
  if fsOk then Except.ok (save_env_file store t e) else Except.error PyErr.ioError

/-- Embeds `save_token_to_env` (src/bot.py lines 82-114): the `except` clause
catches every exception and only logs it, so the function always returns
normally; on a failed write the durable store keeps its previous contents. -/
def save_token_to_env (store t e : PyStr) (fsOk : Bool) : PyStr :=
  match save_token_to_env_try store t e fsOk with
  | Except.ok s => s
  | Except.error _ => store

/-- Removes one trailing newline from a line, as the dotenv reader does
before interpreting `key=value`. -/
def chomp (l : PyStr) : PyStr :=
  match l.reverse with
  | c :: rest => if c = '\n' then rest.reverse else l
  | [] => l

/-- Splits a character sequence at its first `'='` into key and value;
`none` when there is no `'='`. -/
def splitEq : PyStr → Option (PyStr × PyStr)
  | [] => none
  | c :: cs =>
    if c = '=' then some ([], cs)
    else
      match splitEq cs with
      | none => none
      | some (k, v) => some (c :: k, v)

/-- Interprets one stored line as a `key=value` binding. -/
def parse_line (l : PyStr) : Option (PyStr × PyStr) := splitEq (chomp l)

/-- The binding a single stored line contributes for a given key. -/
def line_value (l k : PyStr) : Option PyStr :=
  match parse_line l with
  | some kv => if kv.1 = k then some kv.2 else none
  | none => none

/-- Models the dotenv load of the durable store at its interface (the spec's
Durable config store: key=value lines): the value bound to a key is the one
on the last line defining it; lines without `'='` bind nothing. -/
def dotenv_get : List PyStr → PyStr → Option PyStr
  | [], _ => none
  | l :: ls, k =>
    match dotenv_get ls k with
    | some v => some v
    | none => line_value l k

/-- The module globals of src/bot.py that the token lifecycle reads:
`IAM_TOKEN`, `IAM_TOKEN_EXPIRES` (each `None` when the environment variable
is unset) and the parsed `AUTHORIZED_KEY` object. -/
structure Globals where
  iam_token : Option PyStr
  iam_token_expires : Option PyStr
  authorized_key : List (PyStr × PyStr)
  deriving DecidableEq, Repr

/-- The observable outcome of one `get_iam_token()` call: the returned value
or propagated exception, the module globals after the call, the number of
token-exchange POSTs issued during the call, and the `.env` store after the
call. -/
structure TokenFetch where
  result : Except PyErr PyStr
  globalsAfter : Globals
  exchangeCalls : Nat
  storeAfter : PyStr
  deriving DecidableEq, Repr

/-- Embeds `get_iam_token` (src/bot.py lines 140-168).  `now` is the ambient
clock reading; `exch` is the outcome of the single `session.post` to the
token endpoint (`Except.error` covering `raise_for_status`, malformed JSON
and missing response fields); `fsOk` is whether the `.env` write succeeds.
The source declares no `global` statement and assigns no module global, so
the globals after the call always equal the globals before it; the outer
`try`/`except` logs and re-raises, leaving propagation unchanged. -/
def get_iam_token (g : Globals) (now : Int) (exch : Except PyErr (PyStr × PyStr))
    (store : PyStr) (fsOk : Bool) : TokenFetch :=
  if is_token_expired g.iam_token g.iam_token_expires now = false then
    { result := Except.ok (g.iam_token.getD []), globalsAfter := g
      exchangeCalls := 0, storeAfter := store }
  else
    match create_jwt_token g.authorized_key now with
    | Except.error e =>
      { result := Except.error e, globalsAfter := g, exchangeCalls := 0, storeAfter := store }
    | Except.ok _ =>
      match exch with
      | Except.error e =>
        { result := Except.error e, globalsAfter := g, exchangeCalls := 1, storeAfter := store }
      | Except.ok (tok, expStr) =>
        { result := Except.ok tok, globalsAfter := g, exchangeCalls := 1
          storeAfter := save_token_to_env store tok expStr fsOk }

/-- N logical callers that observe the same snapshot of the module globals
while it is stale and each run `get_iam_token` to completion.  The source
never writes the shared globals inside `get_iam_token`, so each caller's
control flow and result depend only on the shared snapshot and its own HTTP
response, independent of how the async steps interleave; the list carries
one exchange outcome per caller. -/
def concurrent_fetch (g : Globals) (now : Int)
    (exchanges : List (Except PyErr (PyStr × PyStr))) : List TokenFetch :=
  exchanges.map (fun ex => get_iam_token g now ex [] true)

/-- Total number of exchange POSTs issued across a group of callers. -/
def total_exchange_calls (rs : List TokenFetch) : Nat :=
  (rs.map (fun r => r.exchangeCalls)).sum

/-- The module globals of a process started with no persisted token. -/
def g_empty : Globals :=
  { iam_token := none, iam_token_expires := none, authorized_key := demo_key }

/-- A line as produced by reading a newline-terminated text file: it ends
with the newline character and contains no other newline. -/
def IsNLLine (l : PyStr) : Prop := ∃ l', l = l' ++ ['\n'] ∧ '\n' ∉ l'

theorem readlines_line_append (l' rest : PyStr) (h : '\n' ∉ l') :
    readlines (l' ++ '\n' :: rest) = (l' ++ ['\n']) :: readlines rest := by
  induction l' with
  | nil => simp [readlines]
  | cons c cs ih =>
    have hc : ¬ c = '\n' := fun hh => h (hh ▸ List.mem_cons_self c cs)
    have hcs : '\n' ∉ cs := fun hh => h (List.mem_cons_of_mem c hh)
    rw [List.cons_append]
    rw [show readlines (c :: (cs ++ '\n' :: rest)) =
        if c = '\n' then ['\n'] :: readlines (cs ++ '\n' :: rest)
        else
          match readlines (cs ++ '\n' :: rest) with
          | [] => [[c]]
          | l :: ls => (c :: l) :: ls
      from rfl]
    rw [if_neg hc, ih hcs]
    rfl

theorem readlines_flatten (ls : List PyStr) (h : ∀ l ∈ ls, IsNLLine l) :
    readlines ls.flatten = ls := by
  induction ls with
  | nil => rfl
  | cons l ls ih =>
    obtain ⟨l', hl', hn⟩ := h l (List.mem_cons_self l ls)
    have hrest : ∀ x ∈ ls, IsNLLine x := fun x hx => h x (List.mem_cons_of_mem l hx)
    rw [List.flatten_cons, hl', List.append_assoc, List.singleton_append,
      readlines_line_append l' ls.flatten hn, ih hrest]

theorem dropWhile_append_stop (a : PyStr) (c : Char) (cs : PyStr)
    (hc : isPySpace c = false) :
    (a ++ c :: cs).dropWhile isPySpace = a.dropWhile isPySpace ++ c :: cs := by
  induction a with
  | nil => simp [List.dropWhile, hc]
  | cons x xs ih =>
    cases hx : isPySpace x with
    | true => simp [List.dropWhile, hx, ih]
    | false => simp [List.dropWhile, hx]

theorem isPrefixOf_append_self (p r : PyStr) : p.isPrefixOf (p ++ r) = true := by
  induction p with
  | nil => simp
  | cons c cs ih => simp [List.isPrefixOf_cons₂, ih]

theorem pyStrip_append_prefix (p r : PyStr) (hp : p ≠ [])
    (hs : ∀ c ∈ p, isPySpace c = false) :
    ∃ r', pyStrip (p ++ r) = p ++ r' := by
  cases p with
  | nil => exact absurd rfl hp
  | cons c p' =>
    have hc : isPySpace c = false := hs c (List.mem_cons_self c p')
    have h1 : ((c :: p') ++ r).dropWhile isPySpace = (c :: p') ++ r := by
      simp [List.dropWhile, hc]
    cases hq : (c :: p').reverse with
    | nil => simp at hq
    | cons d ds =>
      have hd : d ∈ c :: p' := by
        rw [← List.mem_reverse, hq]
        exact List.mem_cons_self d ds
      have hdn : isPySpace d = false := hs d hd
      refine ⟨((r.reverse.dropWhile isPySpace).reverse), ?_⟩
      unfold pyStrip
      rw [h1, List.reverse_append, hq, dropWhile_append_stop _ d ds hdn,
        List.reverse_append, List.reverse_cons]
      have : ds.reverse ++ [d] = c :: p' := by
        rw [← List.reverse_cons, ← hq, List.reverse_reverse]
      rw [this]

theorem matches_token_line_append (r : PyStr) :
    matches_token_line (line_key_token ++ r) = true := by
  obtain ⟨r', hr⟩ := pyStrip_append_prefix line_key_token r (by decide) (by decide)
  unfold matches_token_line
  rw [hr]
  exact isPrefixOf_append_self line_key_token r'

theorem matches_expires_line_append (r : PyStr) :
    matches_expires_line (line_key_expires ++ r) = true := by
  obtain ⟨r', hr⟩ := pyStrip_append_prefix line_key_expires r (by decide) (by decide)
  unfold matches_expires_line
  rw [hr]
  exact isPrefixOf_append_self line_key_expires r'


theorem splitEq_sound : ∀ (x k v : PyStr), splitEq x = some (k, v) → x = k ++ '=' :: v := by
  intro x
  induction x with
  | nil => intro k v h; cases h
  | cons c cs ih =>
    intro k v h
    unfold splitEq at h
    by_cases hc : c = '='
    · rw [if_pos hc] at h
      cases h
      simp [hc]
    · rw [if_neg hc] at h
      cases hs : splitEq cs with
      | none => rw [hs] at h; simp at h
      | some kv =>
        obtain ⟨k', v'⟩ := kv
        rw [hs] at h
        simp only [Option.some.injEq, Prod.mk.injEq] at h
        obtain ⟨hk, hv⟩ := h
        subst hk
        subst hv
        rw [List.cons_append, ih k' v' hs]

theorem splitEq_append (k v : PyStr) (hk : '=' ∉ k) :
    splitEq (k ++ '=' :: v) = some (k, v) := by
  induction k with
  | nil => simp [splitEq]
  | cons c cs ih =>
    have hc : ¬ c = '=' := fun hh => hk (hh ▸ List.mem_cons_self c cs)
    have hcs : '=' ∉ cs := fun hh => hk (List.mem_cons_of_mem c hh)
    rw [List.cons_append]
    unfold splitEq
    rw [if_neg hc, ih hcs]

theorem chomp_concat_newline (x : PyStr) : chomp (x ++ ['\n']) = x := by
  unfold chomp
  rw [List.reverse_append]
  simp

theorem chomp_cases (l : PyStr) : l = chomp l ∨ l = chomp l ++ ['\n'] := by
  cases hr : l.reverse with
  | nil =>
    left
    unfold chomp
    rw [hr]
  | cons c cs =>
    have hl : l = cs.reverse ++ [c] := by
      have h2 := congrArg List.reverse hr
      simpa using h2
    by_cases hc : c = '\n'
    · right
      subst hc
      rw [hl, chomp_concat_newline]
    · left
      have h3 : chomp l = l := by
        unfold chomp
        rw [hr]
        simp [hc]
      rw [h3]

theorem parse_line_token_line (t : PyStr) :
    parse_line (token_line t) = some (env_key_token, t) := by
  unfold parse_line token_line
  rw [List.append_assoc, ← List.append_assoc, chomp_concat_newline]
  have hk : line_key_token = env_key_token ++ ['='] := by decide
  rw [hk, List.append_assoc, List.singleton_append]
  exact splitEq_append env_key_token t (by decide)

theorem parse_line_expires_line (e : PyStr) :
    parse_line (expires_line e) = some (env_key_expires, e) := by
  unfold parse_line expires_line
  rw [List.append_assoc, ← List.append_assoc, chomp_concat_newline]
  have hk : line_key_expires = env_key_expires ++ ['='] := by decide
  rw [hk, List.append_assoc, List.singleton_append]
  exact splitEq_append env_key_expires e (by decide)

theorem parse_token_key_matches (l v : PyStr)
    (h : parse_line l = some (env_key_token, v)) : matches_token_line l = true := by
  have hc : chomp l = line_key_token ++ v := by
    have h2 := splitEq_sound (chomp l) env_key_token v h
    rw [h2]
    have hk : line_key_token = env_key_token ++ ['='] := by decide
    rw [hk, List.append_assoc, List.singleton_append]
  rcases chomp_cases l with hl | hl
  · rw [hl, hc]
    exact matches_token_line_append v
  · rw [hl, hc, List.append_assoc]
    exact matches_token_line_append (v ++ ['\n'])

theorem parse_expires_key_matches (l v : PyStr)
    (h : parse_line l = some (env_key_expires, v)) : matches_expires_line l = true := by
  have hc : chomp l = line_key_expires ++ v := by
    have h2 := splitEq_sound (chomp l) env_key_expires v h
    rw [h2]
    have hk : line_key_expires = env_key_expires ++ ['='] := by decide
    rw [hk, List.append_assoc, List.singleton_append]
  rcases chomp_cases l with hl | hl
  · rw [hl, hc]
    exact matches_expires_line_append v
  · rw [hl, hc, List.append_assoc]
    exact matches_expires_line_append (v ++ ['\n'])

theorem line_value_eq_some (l k v : PyStr) (h : line_value l k = some v) :
    parse_line l = some (k, v) := by
  unfold line_value at h
  cases hp : parse_line l with
  | none => rw [hp] at h; simp at h
  | some kv =>
    obtain ⟨k', v'⟩ := kv
    rw [hp] at h
    by_cases hk : k' = k
    · simp only [hk] at h
      simp at h
      simp [hp, hk, h]
    · simp [hk] at h

theorem line_value_of_parse (l k v : PyStr) (h : parse_line l = some (k, v)) :
    line_value l k = some v := by
  simp [line_value, h]

theorem dotenv_get_sound (ls : List PyStr) (k v : PyStr)
    (h : dotenv_get ls k = some v) : ∃ l ∈ ls, parse_line l = some (k, v) := by
  induction ls with
  | nil => cases h
  | cons l rest ih =>
    unfold dotenv_get at h
    cases hd : dotenv_get rest k with
    | some v' =>
      rw [hd] at h
      simp only [Option.some.injEq] at h
      subst h
      obtain ⟨l', hl', hp'⟩ := ih hd
      exact ⟨l', List.mem_cons_of_mem l hl', hp'⟩
    | none =>
      rw [hd] at h
      simp only at h
      exact ⟨l, List.mem_cons_self l rest, line_value_eq_some l k v h⟩

theorem dotenv_get_ne_none (ls : List PyStr) (l k v : PyStr)
    (hmem : l ∈ ls) (hp : parse_line l = some (k, v)) : dotenv_get ls k ≠ none := by
  induction ls with
  | nil => cases hmem
  | cons l' rest ih =>
    unfold dotenv_get
    cases hd : dotenv_get rest k with
    | some v' => simp
    | none =>
      simp only
      rcases List.mem_cons.mp hmem with he | hmem'
      · subst he
        rw [line_value_of_parse l k v hp]
        simp
      · exact absurd hd (ih hmem')

theorem dotenv_get_eq (ls : List PyStr) (k v : PyStr)
    (hall : ∀ l ∈ ls, ∀ v', parse_line l = some (k, v') → v' = v)
    (hex : ∃ l ∈ ls, parse_line l = some (k, v)) : dotenv_get ls k = some v := by
  induction ls with
  | nil => obtain ⟨l, hl, _⟩ := hex; cases hl
  | cons l rest ih =>
    unfold dotenv_get
    cases hd : dotenv_get rest k with
    | some v'' =>
      obtain ⟨l', hl', hp'⟩ := dotenv_get_sound rest k v'' hd
      have hv : v'' = v := hall l' (List.mem_cons_of_mem l hl') v'' hp'
      simp [hv]
    | none =>
      simp only
      obtain ⟨l', hl', hp'⟩ := hex
      rcases List.mem_cons.mp hl' with he | hmem'
      · subst he
        exact line_value_of_parse l' k v hp'
      · exact absurd hd (dotenv_get_ne_none rest l' k v hmem' hp')

theorem save_lines_loop_mem (ls : List PyStr) (t e : PyStr) :
    ∀ l' ∈ (save_lines_loop ls t e).1,
      l' = token_line t ∨ l' = expires_line e ∨
        (l' ∈ ls ∧ matches_token_line l' = false ∧ matches_expires_line l' = false) := by
  induction ls with
  | nil => intro l' h; cases h
  | cons l rest ih =>
    intro l' h
    unfold save_lines_loop at h
    by_cases h1 : matches_token_line l
    · rw [if_pos h1] at h
      rcases List.mem_cons.mp h with he | hm
      · exact Or.inl he
      · rcases ih l' hm with ha | ha | ⟨hm', hx, hy⟩
        · exact Or.inl ha
        · exact Or.inr (Or.inl ha)
        · exact Or.inr (Or.inr ⟨List.mem_cons_of_mem l hm', hx, hy⟩)
    · rw [if_neg h1] at h
      by_cases h2 : matches_expires_line l
      · rw [if_pos h2] at h
        rcases List.mem_cons.mp h with he | hm
        · exact Or.inr (Or.inl he)
        · rcases ih l' hm with ha | ha | ⟨hm', hx, hy⟩
          · exact Or.inl ha
          · exact Or.inr (Or.inl ha)
          · exact Or.inr (Or.inr ⟨List.mem_cons_of_mem l hm', hx, hy⟩)
      · rw [if_neg h2] at h
        rcases List.mem_cons.mp h with he | hm
        · subst he
          exact Or.inr (Or.inr ⟨List.mem_cons_self l' rest,
            Bool.not_eq_true _ ▸ eq_false_of_ne_true h1, eq_false_of_ne_true h2⟩)
        · rcases ih l' hm with ha | ha | ⟨hm', hx, hy⟩
          · exact Or.inl ha
          · exact Or.inr (Or.inl ha)
          · exact Or.inr (Or.inr ⟨List.mem_cons_of_mem l hm', hx, hy⟩)

theorem save_lines_loop_flag_token (ls : List PyStr) (t e : PyStr)
    (h : (save_lines_loop ls t e).2.1 = true) :
    token_line t ∈ (save_lines_loop ls t e).1 := by
  induction ls with
  | nil => cases h
  | cons l rest ih =>
    unfold save_lines_loop at h ⊢
    by_cases h1 : matches_token_line l
    · rw [if_pos h1]
      exact List.mem_cons_self _ _
    · rw [if_neg h1] at h ⊢
      by_cases h2 : matches_expires_line l
      · rw [if_pos h2] at h ⊢
        exact List.mem_cons_of_mem _ (ih h)
      · rw [if_neg h2] at h ⊢
        exact List.mem_cons_of_mem _ (ih h)

theorem save_lines_loop_flag_expires (ls : List PyStr) (t e : PyStr)
    (h : (save_lines_loop ls t e).2.2 = true) :
    expires_line e ∈ (save_lines_loop ls t e).1 := by
  induction ls with
  | nil => cases h
  | cons l rest ih =>
    unfold save_lines_loop at h ⊢
    by_cases h1 : matches_token_line l
    · rw [if_pos h1] at h ⊢
      exact List.mem_cons_of_mem _ (ih h)
    · rw [if_neg h1] at h ⊢
      by_cases h2 : matches_expires_line l
      · rw [if_pos h2]
        exact List.mem_cons_self _ _
      · rw [if_neg h2] at h ⊢
        exact List.mem_cons_of_mem _ (ih h)

theorem save_lines_mem (ls : List PyStr) (t e : PyStr) :
    ∀ l' ∈ save_lines ls t e,
      l' = token_line t ∨ l' = expires_line e ∨
        (l' ∈ ls ∧ matches_token_line l' = false ∧ matches_expires_line l' = false) := by
  intro l' h
  unfold save_lines at h
  rcases List.mem_append.mp h with h' | h'
  · rcases List.mem_append.mp h' with h'' | h''
    · exact save_lines_loop_mem ls t e l' h''
    · by_cases hf : (save_lines_loop ls t e).2.1
      · rw [if_pos hf] at h''; cases h''
      · rw [if_neg hf] at h''
        rcases List.mem_singleton.mp h'' with he
        exact Or.inl he
  · by_cases hf : (save_lines_loop ls t e).2.2
    · rw [if_pos hf] at h'; cases h'
    · rw [if_neg hf] at h'
      rcases List.mem_singleton.mp h' with he
      exact Or.inr (Or.inl he)

theorem token_line_mem_save_lines (ls : List PyStr) (t e : PyStr) :
    token_line t ∈ save_lines ls t e := by
  unfold save_lines
  by_cases hf : (save_lines_loop ls t e).2.1
  · exact List.mem_append.mpr (Or.inl (List.mem_append.mpr
      (Or.inl (save_lines_loop_flag_token ls t e hf))))
  · refine List.mem_append.mpr (Or.inl (List.mem_append.mpr (Or.inr ?_)))
    rw [if_neg hf]
    exact List.mem_singleton.mpr rfl

theorem expires_line_mem_save_lines (ls : List PyStr) (t e : PyStr) :
    expires_line e ∈ save_lines ls t e := by
  unfold save_lines
  by_cases hf : (save_lines_loop ls t e).2.2
  · exact List.mem_append.mpr (Or.inl (List.mem_append.mpr
      (Or.inl (save_lines_loop_flag_expires ls t e hf))))
  · refine List.mem_append.mpr (Or.inr ?_)
    rw [if_neg hf]
    exact List.mem_singleton.mpr rfl

theorem matches_token_line_token_line (t : PyStr) :
    matches_token_line (token_line t) = true := by
  unfold token_line
  rw [List.append_assoc]
  exact matches_token_line_append (t ++ ['\n'])

theorem matches_expires_line_expires_line (e : PyStr) :
    matches_expires_line (expires_line e) = true := by
  unfold expires_line
  rw [List.append_assoc]
  exact matches_expires_line_append (e ++ ['\n'])

/-- A stored line that the rewrite loop keeps verbatim: its stripped form
starts with neither `IAM_TOKEN=` nor `IAM_TOKEN_EXPIRES=`. -/
def keep_line (l : PyStr) : Bool := !(matches_token_line l) && !(matches_expires_line l)

theorem keep_line_token_line (t : PyStr) : keep_line (token_line t) = false := by
  simp [keep_line, matches_token_line_token_line]

theorem keep_line_expires_line (e : PyStr) : keep_line (expires_line e) = false := by
  simp [keep_line, matches_expires_line_expires_line]

theorem filter_save_lines_loop (ls : List PyStr) (t e : PyStr) :
    (save_lines_loop ls t e).1.filter keep_line = ls.filter keep_line := by
  induction ls with
  | nil => rfl
  | cons l rest ih =>
    unfold save_lines_loop
    by_cases h1 : matches_token_line l
    · rw [if_pos h1]
      have hk : keep_line l = false := by simp [keep_line, h1]
      simp only [List.filter_cons, keep_line_token_line, hk]
      exact ih
    · rw [if_neg h1]
      by_cases h2 : matches_expires_line l
      · rw [if_pos h2]
        have hk : keep_line l = false := by simp [keep_line, h2]
        simp only [List.filter_cons, keep_line_expires_line, hk]
        exact ih
      · rw [if_neg h2]
        have hk : keep_line l = true := by
          simp [keep_line, eq_false_of_ne_true h1, eq_false_of_ne_true h2]
        simp only [List.filter_cons, hk]
        rw [ih]

theorem filter_save_lines (ls : List PyStr) (t e : PyStr) :
    (save_lines ls t e).filter keep_line = ls.filter keep_line := by
  unfold save_lines
  rw [List.filter_append, List.filter_append, filter_save_lines_loop]
  have h1 : ((if (save_lines_loop ls t e).2.1 then [] else [token_line t]).filter keep_line)
      = [] := by
    by_cases hf : (save_lines_loop ls t e).2.1
    · rw [if_pos hf]; rfl
    · rw [if_neg hf]
      simp [List.filter_cons, keep_line_token_line]
  have h2 : ((if (save_lines_loop ls t e).2.2 then [] else [expires_line e]).filter keep_line)
      = [] := by
    by_cases hf : (save_lines_loop ls t e).2.2
    · rw [if_pos hf]; rfl
    · rw [if_neg hf]
      simp [List.filter_cons, keep_line_expires_line]
  rw [h1, h2, List.append_nil, List.append_nil]

theorem nl_token_line (t : PyStr) (ht : '\n' ∉ t) : IsNLLine (token_line t) := by
  refine ⟨line_key_token ++ t, by simp [token_line], ?_⟩
  intro hmem
  rcases List.mem_append.mp hmem with h | h
  · revert h
    decide
  · exact ht h

theorem nl_expires_line (e : PyStr) (he : '\n' ∉ e) : IsNLLine (expires_line e) := by
  refine ⟨line_key_expires ++ e, by simp [expires_line], ?_⟩
  intro hmem
  rcases List.mem_append.mp hmem with h | h
  · revert h
    decide
  · exact he h

/-- C4 amended: `save` followed by the dotenv load reconstructs the exact
`(value, expiresAt)` pair under `IAM_TOKEN` and `IAM_TOKEN_EXPIRES`, and
every stored line not carrying those two keys is preserved verbatim (in
order), provided every existing line of the store is newline-terminated and
the written values contain no newline.  (The counterexample shows the claim
fails without the trailing-newline proviso.) -/
theorem claim_C4_theorem (store t e : PyStr)
    (hs : ∀ l ∈ readlines store, IsNLLine l) (ht : '\n' ∉ t) (he : '\n' ∉ e) :
    dotenv_get (readlines (save_env_file store t e)) env_key_token = some t
    ∧ dotenv_get (readlines (save_env_file store t e)) env_key_expires = some e
    ∧ (readlines (save_env_file store t e)).filter keep_line =
        (readlines store).filter keep_line := by
  have hwf : ∀ l ∈ save_lines (readlines store) t e, IsNLLine l := by
    intro l hl
    rcases save_lines_mem (readlines store) t e l hl with h | h | ⟨hmem, _, _⟩
    · exact h ▸ nl_token_line t ht
    · exact h ▸ nl_expires_line e he
    · exact hs l hmem
  have hrl : readlines (save_env_file store t e) = save_lines (readlines store) t e := by
    unfold save_env_file
    exact readlines_flatten _ hwf
  rw [hrl]
  refine ⟨?_, ?_, filter_save_lines _ _ _⟩
  · apply dotenv_get_eq
    · intro l hl v' hp
      rcases save_lines_mem (readlines store) t e l hl with h | h | ⟨_, hm, _⟩
      · subst h
        rw [parse_line_token_line] at hp
        simp only [Option.some.injEq, Prod.mk.injEq] at hp
        exact hp.2.symm
      · subst h
        rw [parse_line_expires_line] at hp
        simp only [Option.some.injEq, Prod.mk.injEq] at hp
        exact absurd hp.1 (by decide)
      · exact absurd (parse_token_key_matches l v' hp) (by simp [hm])
    · exact ⟨token_line t, token_line_mem_save_lines _ t e, parse_line_token_line t⟩
  · apply dotenv_get_eq
    · intro l hl v' hp
      rcases save_lines_mem (readlines store) t e l hl with h | h | ⟨_, _, hm⟩
      · subst h
        rw [parse_line_token_line] at hp
        simp only [Option.some.injEq, Prod.mk.injEq] at hp
        exact absurd hp.1 (by decide)
      · subst h
        rw [parse_line_expires_line] at hp
        simp only [Option.some.injEq, Prod.mk.injEq] at hp
        exact hp.2.symm
      · exact absurd (parse_expires_key_matches l v' hp) (by simp [hm])
    · exact ⟨expires_line e, expires_line_mem_save_lines _ t e, parse_line_expires_line e⟩

/-- C4 fails as stated: on a store whose single line `OTHER=1` lacks a
trailing newline, `save_token_to_env` appends `IAM_TOKEN=T` directly onto
that line (`writelines` inserts nothing between lines), so the rewritten
store neither yields the saved token under `IAM_TOKEN` on reload nor
preserves the unrelated `OTHER` line. -/
theorem claim_C4_counterexample :
    dotenv_get (readlines (save_env_file (("OTHER=1").toList) (("T").toList) (("E").toList)))
        env_key_token ≠ some (("T").toList)
    ∧ (readlines (save_env_file (("OTHER=1").toList) (("T").toList) (("E").toList))).filter
        keep_line ≠ (readlines (("OTHER=1").toList)).filter keep_line := by
  decide

/-- Witness for C4's amended statement on a concrete newline-terminated
store. -/
theorem claim_C4_witness :
    dotenv_get (readlines (save_env_file (("A=B\n").toList) (("tok").toList) (("expiry").toList)))
        env_key_token = some (("tok").toList)
    ∧ dotenv_get (readlines (save_env_file (("A=B\n").toList) (("tok").toList)
        (("expiry").toList))) env_key_expires = some (("expiry").toList)
    ∧ (readlines (save_env_file (("A=B\n").toList) (("tok").toList)
        (("expiry").toList))).filter keep_line =
          (readlines (("A=B\n").toList)).filter keep_line := by
  have hs : ∀ l ∈ readlines (("A=B\n").toList), IsNLLine l := by
    intro l hl
    have hr : readlines (("A=B\n").toList) = [("A=B\n").toList] := by decide
    rw [hr] at hl
    have he := List.mem_singleton.mp hl
    subst he
    exact ⟨("A=B").toList, by decide, by decide⟩
  exact claim_C4_theorem (("A=B\n").toList) (("tok").toList) (("expiry").toList) hs
    (by decide) (by decide)

/-- The assertion `create_jwt_token` builds from `demo_key` at a given clock
reading. -/
def demo_jwt (clock : Int) : Jwt :=
  { payload := { aud := IAM_TOKEN_URL, iss := ("sa-1").toList, iat := clock
                 exp := clock + 3600 }
    alg := ("PS256").toList
    kid := ("k-1").toList
    signing_key := ("pem").toList }

theorem get_iam_token_stale (g : Globals) (now : Int) (ex : Except PyErr (PyStr × PyStr))
    (st : PyStr) (f : Bool) (j : Jwt)
    (h1 : is_token_expired g.iam_token g.iam_token_expires now = true)
    (hj : create_jwt_token g.authorized_key now = Except.ok j) :
    (get_iam_token g now ex st f).exchangeCalls = 1
    ∧ (get_iam_token g now ex st f).result =
        (match ex with
         | Except.ok p => Except.ok p.1
         | Except.error er => Except.error er)
    ∧ (get_iam_token g now ex st f).globalsAfter = g := by
  cases ex with
  | ok p =>
    obtain ⟨tok, expStr⟩ := p
    unfold get_iam_token
    simp [h1, hj]
  | error er =>
    unfold get_iam_token
    simp [h1, hj]

/-- C1 fails as stated: `get_iam_token` holds no lock and shares no pending
result, so two concurrent callers that both observe the empty cache each
issue their own exchange POST: two exchanges happen, not one, and with two
distinct endpoint responses the callers receive distinct tokens. -/
theorem claim_C1_counterexample :
    total_exchange_calls (concurrent_fetch g_empty 1000
        [Except.ok ((("T1").toList), (("999999").toList)),
         Except.ok ((("T2").toList), (("999999").toList))]) = 2
    ∧ (concurrent_fetch g_empty 1000
        [Except.ok ((("T1").toList), (("999999").toList)),
         Except.ok ((("T2").toList), (("999999").toList))]).map (fun r => r.result) =
        [Except.ok (("T1").toList), Except.ok (("T2").toList)]
    ∧ Except.ok (("T1").toList) ≠ (Except.ok (("T2").toList) : Except PyErr PyStr) := by
  decide

/-- C1 amended: there is no single-flight coordination: every one of the N
callers that observes the stale (or empty) cache performs its own exchange,
so `exchange` is invoked N times, and each caller receives the token (or
error) from its own exchange rather than one shared result. -/
theorem claim_C1_theorem (g : Globals) (now : Int)
    (exs : List (Except PyErr (PyStr × PyStr))) (j : Jwt)
    (h1 : is_token_expired g.iam_token g.iam_token_expires now = true)
    (hj : create_jwt_token g.authorized_key now = Except.ok j) :
    total_exchange_calls (concurrent_fetch g now exs) = exs.length
    ∧ (concurrent_fetch g now exs).map (fun r => r.result) =
        exs.map (fun ex => match ex with
          | Except.ok p => Except.ok p.1
          | Except.error er => Except.error er) := by
  have hone : ∀ ex, (get_iam_token g now ex [] true).exchangeCalls = 1 :=
    fun ex => (get_iam_token_stale g now ex [] true j h1 hj).1
  have hres : ∀ ex, (get_iam_token g now ex [] true).result =
      (match ex with
       | Except.ok p => Except.ok p.1
       | Except.error er => Except.error er) :=
    fun ex => (get_iam_token_stale g now ex [] true j h1 hj).2.1
  constructor
  · unfold total_exchange_calls concurrent_fetch
    rw [List.map_map]
    induction exs with
    | nil => rfl
    | cons ex rest ih =>
      rw [List.map_cons, List.sum_cons, List.length_cons, ih]
      have h := hone ex
      simp only [Function.comp_apply]
      rw [h]
      omega
  · unfold concurrent_fetch
    rw [List.map_map]
    induction exs with
    | nil => rfl
    | cons ex rest ih =>
      rw [List.map_cons, List.map_cons, ih]
      have h := hres ex
      simp only [Function.comp_apply]
      rw [h]

/-- Witness for C1's amended statement: two callers on the empty cache make
two exchange POSTs. -/
theorem claim_C1_witness :
    total_exchange_calls (concurrent_fetch g_empty 0
        [Except.error PyErr.httpError, Except.ok ((("T1").toList), (("7").toList))]) = 2 :=
  (claim_C1_theorem g_empty 0
    [Except.error PyErr.httpError, Except.ok ((("T1").toList), (("7").toList))]
    (demo_jwt 0) (by decide) (by decide)).1.trans (by decide)

/-- C2 is the claim the code breaks: `get_iam_token` never assigns the
module globals, so after a successful exchange at `now = 1000` returning
token `T1` valid until epoch `999999`, a second call at `now = 1001`
(well inside `T1`'s freshness margin) finds the globals still empty,
performs another exchange instead of returning the cached `T1`, and returns
that second exchange's token `T2`. -/
theorem claim_C2_theorem :
    (get_iam_token g_empty 1000
        (Except.ok ((("T1").toList), (("999999").toList))) [] true).result =
      Except.ok (("T1").toList)
    ∧ (get_iam_token g_empty 1000
        (Except.ok ((("T1").toList), (("999999").toList))) [] true).exchangeCalls = 1
    ∧ (get_iam_token g_empty 1000
        (Except.ok ((("T1").toList), (("999999").toList))) [] true).globalsAfter = g_empty
    ∧ datetime_fromisoformat (replace_Z (("999999").toList)) = some 999999
    ∧ (1001 : Int) < 999999 - 5 * 60
    ∧ (get_iam_token
        (get_iam_token g_empty 1000
          (Except.ok ((("T1").toList), (("999999").toList))) [] true).globalsAfter
        1001 (Except.ok ((("T2").toList), (("999999").toList)))
        (get_iam_token g_empty 1000
          (Except.ok ((("T1").toList), (("999999").toList))) [] true).storeAfter
        true).exchangeCalls = 1
    ∧ (get_iam_token
        (get_iam_token g_empty 1000
          (Except.ok ((("T1").toList), (("999999").toList))) [] true).globalsAfter
        1001 (Except.ok ((("T2").toList), (("999999").toList)))
        (get_iam_token g_empty 1000
          (Except.ok ((("T1").toList), (("999999").toList))) [] true).storeAfter
        true).result = Except.ok (("T2").toList) := by
  decide

/-- C3 fails as stated in its third conjunct: when the cache is stale the
source returns the freshly exchanged token without checking its expiry
against the margin, so an exchange response whose expiry equals the current
instant is returned even though `expiresAt - now = 0 < margin`. -/
theorem claim_C3_counterexample :
    (get_iam_token g_empty 1000
        (Except.ok ((("T1").toList), (("1000").toList))) [] true).result =
      Except.ok (("T1").toList)
    ∧ datetime_fromisoformat (replace_Z (("1000").toList)) = some 1000
    ∧ (1000 : Int) - 1000 < 5 * 60 := by
  decide

/-- C3 amended: the freshness predicate is exact (`usable ↔
now < expiresAt - 300`, with a missing token or expiry never fresh), and the
freshness invariant holds for every token served from the cache: whenever
`get_iam_token` returns the cached token it does so without an exchange and
its stored expiry satisfies `now < expiresAt - margin`; a token coming from
a fresh exchange is returned without any expiry check. -/
theorem claim_C3_theorem :
    (∀ (t s : PyStr) (now e : Int), pyFalsy (some t) = false →
        datetime_fromisoformat (replace_Z s) = some e →
        (is_token_expired (some t) (some s) now = false ↔ now < e - 5 * 60))
    ∧ (∀ (x : Option PyStr) (now : Int),
        is_token_expired none x now = true ∧ is_token_expired x none now = true)
    ∧ (∀ (g : Globals) (now : Int) (ex : Except PyErr (PyStr × PyStr)) (st : PyStr)
        (f : Bool), is_token_expired g.iam_token g.iam_token_expires now = false →
        ∃ s e, g.iam_token_expires = some s
          ∧ datetime_fromisoformat (replace_Z s) = some e
          ∧ now < e - 5 * 60
          ∧ (get_iam_token g now ex st f).result = Except.ok (g.iam_token.getD [])
          ∧ (get_iam_token g now ex st f).exchangeCalls = 0) := by
  refine ⟨?_, ?_, ?_⟩
  · intro t s now e hft hp
    have hs : pyFalsy (some s) = false := by
      cases s with
      | nil => simp [replace_Z, datetime_fromisoformat] at hp
      | cons c cs => rfl
    simp [is_token_expired, hft, hs, is_token_expired_try, hp]
    omega
  · intro x now
    refine ⟨rfl, ?_⟩
    simp [is_token_expired, pyFalsy]
  · intro g now ex st f h0
    have h := h0
    unfold is_token_expired at h
    by_cases hf : (pyFalsy g.iam_token || pyFalsy g.iam_token_expires) = true
    · rw [if_pos hf] at h
      cases h
    · rw [if_neg hf] at h
      cases hexp : g.iam_token_expires with
      | none =>
        rw [hexp] at hf
        simp [pyFalsy] at hf
      | some s =>
        rw [hexp] at h
        simp only [Option.getD_some] at h
        cases hp : datetime_fromisoformat (replace_Z s) with
        | none => simp [is_token_expired_try, hp] at h
        | some e =>
          have hb : decide (now ≥ e - 5 * 60) = false := by
            simpa [is_token_expired_try, hp] using h
          have hlt : now < e - 5 * 60 := by
            have := of_decide_eq_false hb
            omega
          refine ⟨s, e, rfl, hp, hlt, ?_, ?_⟩
          · simp [get_iam_token, h0]
          · simp [get_iam_token, h0]

/-- Witness for C3's amended statement at concrete inputs. -/
theorem claim_C3_witness :
    (is_token_expired (some (("t").toList)) (some (("500").toList)) 100 = false ↔
      (100 : Int) < 500 - 5 * 60)
    ∧ is_token_expired none (some (("x").toList)) 0 = true := by
  constructor
  · exact claim_C3_theorem.1 (("t").toList) (("500").toList) 100 500 (by decide) (by decide)
  · exact (claim_C3_theorem.2.1 (some (("x").toList)) 0).1

/-- C5: when the exchange fails, `get_iam_token` surfaces that same error to
the caller of the attempt (each refresh attempt in the source has exactly
that one waiter, there being no shared pending handle), issues exactly one
exchange POST (no retry inside the call), and leaves the globals and the
store unchanged, so a later stale call performs a fresh exchange: no
permanent lockout. -/
theorem claim_C5_theorem (g : Globals) (now now2 : Int) (err : PyErr) (st st2 : PyStr)
    (f f2 : Bool) (ex2 : Except PyErr (PyStr × PyStr)) (j j2 : Jwt)
    (h1 : is_token_expired g.iam_token g.iam_token_expires now = true)
    (hj : create_jwt_token g.authorized_key now = Except.ok j)
    (h2 : is_token_expired g.iam_token g.iam_token_expires now2 = true)
    (hj2 : create_jwt_token g.authorized_key now2 = Except.ok j2) :
    get_iam_token g now (Except.error err) st f =
      { result := Except.error err, globalsAfter := g, exchangeCalls := 1, storeAfter := st }
    ∧ (get_iam_token g now2 ex2 st2 f2).exchangeCalls = 1 := by
  constructor
  · unfold get_iam_token
    simp [h1, hj]
  · exact (get_iam_token_stale g now2 ex2 st2 f2 j2 h2 hj2).1

/-- Witness for C5 at a concrete failing exchange. -/
theorem claim_C5_witness :
    get_iam_token g_empty 0 (Except.error PyErr.httpError) [] true =
      { result := Except.error PyErr.httpError, globalsAfter := g_empty
        exchangeCalls := 1, storeAfter := [] }
    ∧ (get_iam_token g_empty 1
        (Except.ok ((("T2").toList), (("999999").toList))) [] true).exchangeCalls = 1 :=
  claim_C5_theorem g_empty 0 1 PyErr.httpError [] [] true true
    (Except.ok ((("T2").toList), (("999999").toList))) (demo_jwt 0) (demo_jwt 1)
    (by decide) (by decide) (by decide) (by decide)

/-- C10: a persistence failure never fails the refresh: `save_token_to_env`
catches every exception and returns normally (leaving the store as it was),
and `get_iam_token` still returns the freshly exchanged token to its caller
even though the write-through did not happen. -/
theorem claim_C10_theorem (g : Globals) (now : Int) (tok expStr st : PyStr) (j : Jwt)
    (h1 : is_token_expired g.iam_token g.iam_token_expires now = true)
    (hj : create_jwt_token g.authorized_key now = Except.ok j) :
    save_token_to_env st tok expStr false = st
    ∧ get_iam_token g now (Except.ok (tok, expStr)) st false =
        { result := Except.ok tok, globalsAfter := g, exchangeCalls := 1, storeAfter := st } := by
  constructor
  · rfl
  · unfold get_iam_token
    simp [h1, hj, save_token_to_env, save_token_to_env_try]

/-- Witness for C10 at a concrete store and exchange result. -/
theorem claim_C10_witness :
    save_token_to_env (("A=B\n").toList) (("T1").toList) (("999999").toList) false =
      (("A=B\n").toList)
    ∧ get_iam_token g_empty 42
        (Except.ok ((("T1").toList), (("999999").toList))) (("A=B\n").toList) false =
        { result := Except.ok (("T1").toList), globalsAfter := g_empty
          exchangeCalls := 1, storeAfter := (("A=B\n").toList) } :=
  claim_C10_theorem g_empty 42 (("T1").toList) (("999999").toList) (("A=B\n").toList)
    (demo_jwt 42) (by decide) (by decide)
